import Mathlib

/-!
Verification development for the `mcp-design-comparison` MCP server
(`src/index.ts`).  The server exposes one tool, `compare_design`, which loads
two PNG screenshots, compares them pixel-by-pixel with the `pixelmatch`
library, and returns pixel counts, a difference percentage and a diff image
(written to a file, or base64-encoded inline).

The embedding below mirrors `src/index.ts` together with the behaviour of its
two external dependencies that the contract depends on: the `pixelmatch`
comparison algorithm (embedded from its published implementation, with the
option defaults that apply to the call `pixelmatch(a, b, diff, w, h,
{threshold})`) and the `pngjs` codec plus `fs` module (modelled at their
interfaces).  JavaScript numbers are modelled as exact rational values.
-/

/-- A JavaScript number value, modelled as an exact rational: an integer
numerator over a positive integer denominator.  Fractions are deliberately
kept unreduced so that every operation is a plain integer computation the
kernel can evaluate; `JQ.toRat` gives the rational value, and all comparisons
used by the embedded code compare values, not representations. -/
structure JQ where
  num : ℤ
  den : ℤ
  dpos : 0 < den

/-- The rational value represented by a `JQ`. -/
def JQ.toRat (a : JQ) : ℚ := (a.num : ℚ) / (a.den : ℚ)

instance : OfNat JQ n := ⟨⟨n, 1, one_pos⟩⟩

instance : OfScientific JQ :=
  ⟨fun m s e =>
    if s then ⟨(m : ℤ), (10 : ℤ) ^ e, by positivity⟩
    else ⟨(m : ℤ) * (10 : ℤ) ^ e, 1, one_pos⟩⟩

instance : NatCast JQ := ⟨fun n => ⟨n, 1, one_pos⟩⟩

instance : Add JQ :=
  ⟨fun a b => ⟨a.num * b.den + b.num * a.den, a.den * b.den, mul_pos a.dpos b.dpos⟩⟩

instance : Neg JQ := ⟨fun a => ⟨-a.num, a.den, a.dpos⟩⟩

instance : Sub JQ := ⟨fun a b => a + -b⟩

instance : Mul JQ :=
  ⟨fun a b => ⟨a.num * b.num, a.den * b.den, mul_pos a.dpos b.dpos⟩⟩

/-- Division of `JQ` values.  Every division performed by the embedded code
has a divisor of nonzero value (the JavaScript division-by-zero cases are
handled separately, in `jnDiv`); a zero-valued divisor yields the junk value
0 here. -/
instance : Div JQ :=
  ⟨fun a b =>
    if h : 0 < b.num then ⟨a.num * b.den, a.den * b.num, mul_pos a.dpos h⟩
    else if h2 : b.num < 0 then
      ⟨-(a.num * b.den), -(a.den * b.num), neg_pos.mpr (mul_neg_of_pos_of_neg a.dpos h2)⟩
    else ⟨0, 1, one_pos⟩⟩

/-- JavaScript `Math.abs` on the value of a `JQ`. -/
def JQ.absV (a : JQ) : JQ := ⟨(a.num.natAbs : ℤ), a.den, a.dpos⟩

/-- JavaScript `<` on number values. -/
instance : LT JQ := ⟨fun a b => a.toRat < b.toRat⟩

/-- JavaScript `<=` on number values. -/
instance : LE JQ := ⟨fun a b => a.toRat ≤ b.toRat⟩

instance (a b : JQ) : Decidable (a < b) :=
  decidable_of_iff (a.num * b.den < b.num * a.den) (by
    show _ ↔ a.toRat < b.toRat
    unfold JQ.toRat
    rw [div_lt_div_iff₀ (by exact_mod_cast a.dpos) (by exact_mod_cast b.dpos)]
    exact_mod_cast Iff.rfl)

instance (a b : JQ) : Decidable (a ≤ b) :=
  decidable_of_iff (a.num * b.den ≤ b.num * a.den) (by
    show _ ↔ a.toRat ≤ b.toRat
    unfold JQ.toRat
    rw [div_le_div_iff₀ (by exact_mod_cast a.dpos) (by exact_mod_cast b.dpos)]
    exact_mod_cast Iff.rfl)

/-- Value equality of `JQ`s (JavaScript `===` on numbers). -/
def JQ.eqv (a b : JQ) : Prop := a.toRat = b.toRat

instance (a b : JQ) : Decidable (JQ.eqv a b) :=
  decidable_of_iff (a.num * b.den = b.num * a.den) (by
    show _ ↔ a.toRat = b.toRat
    unfold JQ.toRat
    rw [div_eq_div_iff (by exact_mod_cast a.dpos.ne.symm) (by exact_mod_cast b.dpos.ne.symm)]
    exact_mod_cast Iff.rfl)

instance : DecidableEq JQ := fun a b =>
  decidable_of_iff (a.num = b.num ∧ a.den = b.den) (by
    cases a
    cases b
    simp)

/-- A JavaScript number that may also be the special value `NaN` or
`Infinity` (the latter two arise only from division by zero). -/
inductive JNum where
  | num (q : JQ)
  | nan
  | inf
deriving DecidableEq

/-- JavaScript division on the numbers appearing in the result packaging:
`x / 0` is `NaN` for `x = 0` and `Infinity` for `x > 0`. -/
def jnDiv (a b : JNum) : JNum :=
  match a, b with
  | .num x, .num y =>
    if y.num = 0 then (if x.num = 0 then .nan else .inf)
    else .num (x / y)
  | _, _ => .nan

/-- Multiplication of a JavaScript number by a positive literal (`* 100`). -/
def jnMulNat (a : JNum) (n : ℕ) : JNum :=
  match a with
  | .num x => .num (x * (n : JQ))
  | .nan => .nan
  | .inf => .inf

/-- Embed a nonnegative integer count as a JavaScript number. -/
def jnOfNat (n : ℕ) : JNum := .num ((n : ℕ) : JQ)

/-- Byte access `img[i]` into a pixel buffer.  `pixelmatch` checks the buffer
lengths up front, so every access performed by the embedded code is in
bounds; out-of-range access defaults to 0. -/
def getB (img : List ℕ) (i : ℕ) : ℕ := img.getD i 0

/-- `blend(c, a)` from pixelmatch: blend a channel towards white by alpha. -/
def blend (c a : JQ) : JQ := 255 + (c - 255) * a

/-- `rgb2y` from pixelmatch (YIQ luminance). -/
def rgb2y (r g b : JQ) : JQ := r * 0.29889531 + g * 0.58662247 + b * 0.11448223

/-- `rgb2i` from pixelmatch. -/
def rgb2i (r g b : JQ) : JQ := r * 0.59597799 - g * 0.27417610 - b * 0.32180189

/-- `rgb2q` from pixelmatch. -/
def rgb2q (r g b : JQ) : JQ := r * 0.21147017 - g * 0.52261711 + b * 0.31114694

/-- The alpha pre-blending step of pixelmatch's `colorDelta`: if the pixel is
not fully opaque, each channel is blended with white by `a / 255`. -/
def alphaBlend (r g b a : ℕ) : JQ × JQ × JQ :=
  if a < 255 then
    let aq : JQ := ((a : ℕ) : JQ) / 255
    (blend ((r : ℕ) : JQ) aq, blend ((g : ℕ) : JQ) aq, blend ((b : ℕ) : JQ) aq)
  else (((r : ℕ) : JQ), ((g : ℕ) : JQ), ((b : ℕ) : JQ))

/-- `colorDelta(img1, img2, k, m, yOnly)` from pixelmatch: the squared YIQ
colour distance between the pixel at byte offset `k` of `img1` and the pixel
at byte offset `m` of `img2` (negative if the second pixel is lighter), or
the luminance difference only when `yOnly` is set. -/
def colorDelta (img1 img2 : List ℕ) (k m : ℕ) (yOnly : Bool) : JQ :=
  let r1n := getB img1 k
  let g1n := getB img1 (k+1)
  let b1n := getB img1 (k+2)
  let a1n := getB img1 (k+3)
  let r2n := getB img2 m
  let g2n := getB img2 (m+1)
  let b2n := getB img2 (m+2)
  let a2n := getB img2 (m+3)
  if a1n = a2n ∧ r1n = r2n ∧ g1n = g2n ∧ b1n = b2n then 0
  else
    let p1 := alphaBlend r1n g1n b1n a1n
    let p2 := alphaBlend r2n g2n b2n a2n
    let y1 := rgb2y p1.1 p1.2.1 p1.2.2
    let y2 := rgb2y p2.1 p2.2.1 p2.2.2
    let y := y1 - y2
    if yOnly then y
    else
      let i := rgb2i p1.1 p1.2.1 p1.2.2 - rgb2i p2.1 p2.2.1 p2.2.2
      let q := rgb2q p1.1 p1.2.1 p1.2.2 - rgb2q p2.1 p2.2.1 p2.2.2
      let delta := 0.5053 * y * y + 0.299 * i * i + 0.1957 * q * q
      if y2 < y1 then -delta else delta

/-- The 3x3 neighbourhood traversal order of pixelmatch's `antialiased` and
`hasManySiblings`: `x` in `[x0, x2]` outer, `y` in `[y0, y2]` inner (the
centre pixel is skipped inside the loop bodies). -/
def neighborList (x0 x2 y0 y2 : ℕ) : List (ℕ × ℕ) :=
  (List.range' x0 (x2 + 1 - x0)).flatMap
    (fun x => (List.range' y0 (y2 + 1 - y0)).map (fun y => (x, y)))

/-- The border adjustment of the `zeroes` counter: clamped neighbourhoods
start the counter at 1. -/
def borderZeroes (x1 y1 x0 x2 y0 y2 : ℕ) : ℕ :=
  if x1 = x0 ∨ x1 = x2 ∨ y1 = y0 ∨ y1 = y2 then 1 else 0

/-- The loop body of pixelmatch's `hasManySiblings`: counts neighbours whose
four channels equal the centre pixel, returning true as soon as the counter
exceeds 2. -/
def hasManySiblingsLoop (img : List ℕ) (w : ℕ) (pos : ℕ) (x1 y1 : ℕ) :
    List (ℕ × ℕ) → ℕ → Bool
  | [], _ => false
  | (x, y) :: rest, zeroes =>
    if x = x1 ∧ y = y1 then hasManySiblingsLoop img w pos x1 y1 rest zeroes
    else
      let pos2 := (y * w + x) * 4
      let zeroes' :=
        if getB img pos = getB img pos2 ∧ getB img (pos+1) = getB img (pos2+1) ∧
            getB img (pos+2) = getB img (pos2+2) ∧ getB img (pos+3) = getB img (pos2+3)
        then zeroes + 1 else zeroes
      if 2 < zeroes' then true else hasManySiblingsLoop img w pos x1 y1 rest zeroes'

/-- `hasManySiblings(img, x1, y1, width, height)` from pixelmatch: whether the
pixel has 3 or more adjacent pixels of exactly the same colour. -/
def hasManySiblings (img : List ℕ) (x1 y1 w h : ℕ) : Bool :=
  let x0 := x1 - 1
  let y0 := y1 - 1
  let x2 := min (x1 + 1) (w - 1)
  let y2 := min (y1 + 1) (h - 1)
  let pos := (y1 * w + x1) * 4
  hasManySiblingsLoop img w pos x1 y1 (neighborList x0 x2 y0 y2)
    (borderZeroes x1 y1 x0 x2 y0 y2)

/-- The mutable state of pixelmatch's `antialiased` neighbourhood loop: the
count of equal neighbours, the extreme luminance deltas seen so far and the
coordinates where they occurred. -/
structure AAState where
  zeroes : ℕ
  dmin : JQ
  dmax : JQ
  minX : ℕ
  minY : ℕ
  maxX : ℕ
  maxY : ℕ

/-- The loop of pixelmatch's `antialiased`: walks the neighbours of
`(x1, y1)`, bailing out with `false` once more than two equal neighbours are
seen, and otherwise remembering the darkest and brightest neighbours; at the
end the decision is delegated to `hasManySiblings` at those extremes. -/
def antialiasedLoop (img img2 : List ℕ) (w h : ℕ) (pos : ℕ) (x1 y1 : ℕ) :
    List (ℕ × ℕ) → AAState → Bool
  | [], st =>
    if JQ.eqv st.dmin 0 ∨ JQ.eqv st.dmax 0 then false
    else
      (hasManySiblings img st.minX st.minY w h && hasManySiblings img2 st.minX st.minY w h) ||
      (hasManySiblings img st.maxX st.maxY w h && hasManySiblings img2 st.maxX st.maxY w h)
  | (x, y) :: rest, st =>
    if x = x1 ∧ y = y1 then antialiasedLoop img img2 w h pos x1 y1 rest st
    else
      let delta := colorDelta img img pos ((y * w + x) * 4) true
      if JQ.eqv delta 0 then
        if 2 < st.zeroes + 1 then false
        else antialiasedLoop img img2 w h pos x1 y1 rest { st with zeroes := st.zeroes + 1 }
      else if delta < st.dmin then
        antialiasedLoop img img2 w h pos x1 y1 rest { st with dmin := delta, minX := x, minY := y }
      else if st.dmax < delta then
        antialiasedLoop img img2 w h pos x1 y1 rest { st with dmax := delta, maxX := x, maxY := y }
      else antialiasedLoop img img2 w h pos x1 y1 rest st

/-- `antialiased(img, x1, y1, width, height, img2)` from pixelmatch: whether
the pixel at `(x1, y1)` is likely part of anti-aliasing. -/
def antialiased (img : List ℕ) (x1 y1 w h : ℕ) (img2 : List ℕ) : Bool :=
  let x0 := x1 - 1
  let y0 := y1 - 1
  let x2 := min (x1 + 1) (w - 1)
  let y2 := min (y1 + 1) (h - 1)
  let pos := (y1 * w + x1) * 4
  antialiasedLoop img img2 w h pos x1 y1 (neighborList x0 x2 y0 y2)
    { zeroes := borderZeroes x1 y1 x0 x2 y0 y2, dmin := 0, dmax := 0,
      minX := 0, minY := 0, maxX := 0, maxY := 0 }

/-- Conversion of a JavaScript number to a `Uint8Array` element (pixelmatch
writes into the diff `Buffer`): truncation toward zero followed by reduction
modulo 256. -/
def jsToByte (a : JQ) : ℕ := ((Int.tdiv a.num a.den).emod 256).toNat

/-- `drawPixel(output, pos, r, g, b)` from pixelmatch: the four bytes written
at a pixel position (alpha is set to 255). -/
def drawPixelBytes (r g b : JQ) : List ℕ := [jsToByte r, jsToByte g, jsToByte b, 255]

/-- `drawGrayPixel(img, i, alpha, output)` from pixelmatch with the default
`alpha = 0.1`: the source pixel rendered as grayscale blended with white. -/
def drawGrayPixelBytes (img : List ℕ) (i : ℕ) : List ℕ :=
  let color := blend (rgb2y ((getB img i : ℕ) : JQ) ((getB img (i+1) : ℕ) : JQ)
      ((getB img (i+2) : ℕ) : JQ)) ((0.1 : JQ) * ((getB img (i+3) : ℕ) : JQ) / 255)
  drawPixelBytes color color color

/-- The pixel positions visited by pixelmatch's main double loop, in order:
`y` outer over `[0, h)`, `x` inner over `[0, w)`.  The pair at index
`y * w + x` is `(x, y)`, so the list below enumerates exactly that order. -/
def positions (w h : ℕ) : List (ℕ × ℕ) :=
  (List.range h).flatMap (fun y => (List.range w).map (fun x => (x, y)))

/-- The byte offset of pixel `(x, y)`: `(y * width + x) * 4`. -/
def pixelPos (w x y : ℕ) : ℕ := (y * w + x) * 4

/-- Whether the main pixelmatch loop counts position `(x, y)` as a
difference: the colour delta exceeds `maxDelta` and the position is not
classified as anti-aliasing in either direction (the call site uses the
default `includeAA = false`). -/
def pmCountedAt (img1 img2 : List ℕ) (w h : ℕ) (maxDelta : JQ) (x y : ℕ) : Bool :=
  let pos := pixelPos w x y
  let delta := colorDelta img1 img2 pos pos false
  if maxDelta < JQ.absV delta then
    !(antialiased img1 x y w h img2 || antialiased img2 x y w h img1)
  else false

/-- The four diff-output bytes the main pixelmatch loop writes at position
`(x, y)`: the default `diffColor` red `[255, 0, 0]` for a counted difference,
the default `aaColor` yellow `[255, 255, 0]` for an anti-aliased pixel
(`diffColorAlt` is null and `diffMask` false at this call site), and the
grayed source pixel otherwise. -/
def pmOutAt (img1 img2 : List ℕ) (w h : ℕ) (maxDelta : JQ) (x y : ℕ) : List ℕ :=
  let pos := pixelPos w x y
  let delta := colorDelta img1 img2 pos pos false
  if maxDelta < JQ.absV delta then
    if antialiased img1 x y w h img2 || antialiased img2 x y w h img1 then
      drawPixelBytes 255 255 0
    else drawPixelBytes 255 0 0
  else drawGrayPixelBytes img1 pos

/-- The difference count returned by pixelmatch's main loop. -/
def pmMainCount (img1 img2 : List ℕ) (w h : ℕ) (maxDelta : JQ) : ℕ :=
  (positions w h).countP (fun p => pmCountedAt img1 img2 w h maxDelta p.1 p.2)

/-- The diff-output buffer written by pixelmatch's main loop. -/
def pmMainOut (img1 img2 : List ℕ) (w h : ℕ) (maxDelta : JQ) : List ℕ :=
  (positions w h).flatMap (fun p => pmOutAt img1 img2 w h maxDelta p.1 p.2)

/-- The diff-output buffer written by pixelmatch's identical-images fast
path: every pixel of `img1` grayed out. -/
def identicalOut (img : List ℕ) (len : ℕ) : List ℕ :=
  (List.range len).flatMap (fun i => drawGrayPixelBytes img (4 * i))

/-- `pixelmatch(img1, img2, output, width, height, {threshold})` as invoked
by `compareScreenshots` (`src/index.ts` line 49), embedded from the published
pixelmatch implementation.  The output buffer is the freshly allocated
`diff.data` of length `width * height * 4`, so the up-front size checks
reduce to the two tests below.  If the images are byte-identical the fast
path returns 0 and grays the whole output; otherwise every position is
classified against `maxDelta = 35215 * threshold^2`.  Returns the difference
count together with the bytes of the output buffer. -/
def pixelmatchRun (img1 img2 : List ℕ) (w h : ℕ) (threshold : JQ) :
    Except String (ℕ × List ℕ) :=
  if img1.length ≠ img2.length ∨ w * h * 4 ≠ img1.length then
    .error "Image sizes do not match."
  else if img1.length ≠ w * h * 4 then
    .error "Image data size does not match width/height."
  else if img1 = img2 then .ok (0, identicalOut img1 (w * h))
  else
    .ok (pmMainCount img1 img2 w h (35215 * threshold * threshold),
      pmMainOut img1 img2 w h (35215 * threshold * threshold))

/-- A decoded raster, as produced by `pngjs`: width, height and the RGBA byte
buffer (`PNG.data`). -/
structure PNGImage where
  width : ℕ
  height : ℕ
  data : List ℕ
deriving DecidableEq

/-- The raster invariant guaranteed by the decoder: positive dimensions (the
PNG format requires nonzero width and height) and a fully populated 4-channel
buffer. -/
def ValidRaster (p : PNGImage) : Prop :=
  1 ≤ p.width ∧ 1 ≤ p.height ∧ p.data.length = p.width * p.height * 4

instance (p : PNGImage) : Decidable (ValidRaster p) := by
  unfold ValidRaster
  infer_instance

/-- The 8-byte PNG file signature checked by the `pngjs` parser. -/
def pngSignature : List ℕ := [137, 80, 78, 71, 13, 10, 26, 10]

/-- Big-endian decoding of 4 bytes. -/
def be32 (bytes : List ℕ) : ℕ :=
  getB bytes 0 * 16777216 + getB bytes 1 * 65536 + getB bytes 2 * 256 + getB bytes 3

/-- Big-endian encoding of a number into 4 bytes. -/
def be32enc (n : ℕ) : List ℕ :=
  [n / 16777216 % 256, n / 65536 % 256, n / 256 % 256, n % 256]

/-- Model of the external `PNG.sync.read` of `pngjs`, at the interface level.
The parser first checks the 8-byte PNG signature and raises pngjs's error
`Invalid file signature` when it does not match.  The container machinery
behind the signature (IHDR parsing, zlib inflate, bitmapping) is abstracted
into a fixed self-describing layout — width and height big-endian after the
signature, then the RGBA buffer — that `pngSyncWrite` produces; decoding
succeeds exactly on well-formed images with positive dimensions (the PNG
format requires nonzero dimensions) and yields a raster satisfying
`ValidRaster`.  Any other malformed content fails with a decode error. -/
def PNGsyncRead (bytes : List ℕ) : Except String PNGImage :=
  if bytes.take 8 ≠ pngSignature then .error "Invalid file signature"
  else
    if 1 ≤ be32 (bytes.drop 8) ∧ 1 ≤ be32 (bytes.drop 12) ∧
        (bytes.drop 16).length = be32 (bytes.drop 8) * be32 (bytes.drop 12) * 4 then
      .ok ⟨be32 (bytes.drop 8), be32 (bytes.drop 12), bytes.drop 16⟩
    else .error "Invalid file"

/-- Model of the external `PNG.sync.write` of `pngjs`: encodes a raster into
the container layout that `PNGsyncRead` decodes. -/
def pngSyncWrite (img : PNGImage) : List ℕ :=
  pngSignature ++ be32enc img.width ++ be32enc img.height ++ img.data

/-- The file system visible to the process: a map from paths to file
contents. -/
def FS : Type := String → Option (List ℕ)

/-- The empty file system. -/
def emptyFS : FS := fun _ => none

/-- Write a file (`fs.writeFile`): the model file system after the write. -/
def fsWrite (fs : FS) (path : String) (bytes : List ℕ) : FS :=
  fun q => if q = path then some bytes else fs q

/-- A single-quote character, used by Node's error messages. -/
def squote : String := ⟨[Char.ofNat 39]⟩

/-- The message of the error `fs.readFile` rejects with when the path does
not exist (Node's raw `ENOENT` system error). -/
def enoentMsg (path : String) : String :=
  "ENOENT: no such file or directory, open " ++ squote ++ path ++ squote

/-- `fs.readFile`: the file's bytes, or Node's `ENOENT` error for a missing
path. -/
def fsReadFile (fs : FS) (path : String) : Except String (List ℕ) :=
  match fs path with
  | some bytes => .ok bytes
  | none => .error (enoentMsg path)

/-- `loadPNG` from `src/index.ts` (lines 20-23): read the file, then decode
it with `PNG.sync.read`.  Note that the function performs no error
classification of its own — a missing file surfaces as the raw `ENOENT`
error of `fs.readFile`, and unrecognized content surfaces as the raw `pngjs`
parser error. -/
def loadPNG (fs : FS) (filePath : String) : Except String PNGImage :=
  match fsReadFile fs filePath with
  | .error e => .error e
  | .ok data => PNGsyncRead data

/-- The `CompareResult` interface of `src/index.ts` (lines 13-18).  Its only
optional diff-output field is `diffImageBase64`; the interface declares no
diff-image-path field. -/
structure CompareResult where
  totalPixels : ℕ
  differentPixels : ℕ
  differencePercentage : JNum
  diffImageBase64 : Option String
deriving DecidableEq

/-- The percentage computation of `src/index.ts` line 59:
`(differentPixels / totalPixels) * 100`, with JavaScript number semantics
(so `0 / 0` is `NaN`; there is no guard for `totalPixels = 0`). -/
def differencePercentageOf (differentPixels totalPixels : ℕ) : JNum :=
  jnMulNat (jnDiv (jnOfNat differentPixels) (jnOfNat totalPixels)) 100

/-- The dimension-mismatch error message of `src/index.ts` lines 40-42,
with both rasters' dimensions interpolated verbatim. -/
def dimMismatchMsg (design implementation : PNGImage) : String :=
  "Image dimensions don" ++ squote ++ "t match: design (" ++ toString design.width ++ "x" ++
    toString design.height ++ ") vs implementation (" ++ toString implementation.width ++
    "x" ++ toString implementation.height ++ ")"

/-- JavaScript truthiness of the optional `outputDiffPath` argument: absent
and the empty string are falsy. -/
def jsTruthy (s : Option String) : Bool :=
  match s with
  | none => false
  | some v => v != ""

/-- Base64 encoding of a byte list (`Buffer.prototype.toString("base64")`). -/
def b64Char (n : ℕ) : Char :=
  "ABCDEFGHIJKLMNOPQRSTUVWXYZabcdefghijklmnopqrstuvwxyz0123456789+/".toList.getD n 'A'

/-- Base64 encoding, three input bytes at a time with `=` padding. -/
def base64Encode : List ℕ → String
  | [] => ""
  | [b1] => String.mk [b64Char (b1 / 4), b64Char (b1 % 4 * 16)] ++ "=="
  | [b1, b2] =>
    String.mk [b64Char (b1 / 4), b64Char (b1 % 4 * 16 + b2 / 16), b64Char (b2 % 16 * 4)] ++ "="
  | b1 :: b2 :: b3 :: rest =>
    String.mk [b64Char (b1 / 4), b64Char (b1 % 4 * 16 + b2 / 16),
      b64Char (b2 % 16 * 4 + b3 / 64), b64Char (b3 % 64)] ++ base64Encode rest

/-- The body of `compareScreenshots` (`src/index.ts` lines 35-76) after the
two images have been loaded: the dimension check, the `pixelmatch` call on a
fresh diff buffer, the metric computations, and the exclusive choice between
writing the encoded diff to `outputDiffPath` (when truthy) and returning it
base64-encoded in the result.  The file system is threaded explicitly to
capture the `fs.writeFile` side effect. -/
def compareLoaded (fs : FS) (design implementation : PNGImage)
    (outputDiffPath : Option String) (threshold : JQ) :
    Except String (CompareResult × FS) :=
  if design.width ≠ implementation.width ∨ design.height ≠ implementation.height then
    .error (dimMismatchMsg design implementation)
  else
    match pixelmatchRun design.data implementation.data design.width design.height threshold with
    | .error e => .error e
    | .ok (differentPixels, diffData) =>
      let totalPixels := design.width * design.height
      let differencePercentage := differencePercentageOf differentPixels totalPixels
      let diff : PNGImage := ⟨design.width, design.height, diffData⟩
      match outputDiffPath with
      | some p =>
        if p = "" then
          .ok (⟨totalPixels, differentPixels, differencePercentage,
            some (base64Encode (pngSyncWrite diff))⟩, fs)
        else
          .ok (⟨totalPixels, differentPixels, differencePercentage, none⟩,
            fsWrite fs p (pngSyncWrite diff))
      | none =>
        .ok (⟨totalPixels, differentPixels, differencePercentage,
          some (base64Encode (pngSyncWrite diff))⟩, fs)

/-- `compareScreenshots` from `src/index.ts` (lines 25-77): load both
images, then run the comparison body.  A rejection of either load propagates
unchanged.  The caller supplies the threshold explicitly (the TypeScript
default `threshold = 0.1` is applied at the call site in the request
handler). -/
def compareScreenshots (fs : FS) (designPath implementationPath : String)
    (outputDiffPath : Option String) (threshold : JQ) :
    Except String (CompareResult × FS) :=
  match loadPNG fs designPath with
  | .error e => .error e
  | .ok design =>
    match loadPNG fs implementationPath with
    | .error e => .error e
    | .ok implementation => compareLoaded fs design implementation outputDiffPath threshold

/-- The result component of a finished `compareScreenshots` call, when it
succeeded. -/
def runResult (e : Except String (CompareResult × FS)) : Option CompareResult :=
  match e with
  | .ok p => some p.1
  | .error _ => none

/-- The error message of a finished `compareScreenshots` call, when it
failed. -/
def runError (e : Except String (CompareResult × FS)) : Option String :=
  match e with
  | .ok _ => none
  | .error m => some m

/-- The file system after a finished `compareScreenshots` call (unchanged
default when the call failed). -/
def runFS (e : Except String (CompareResult × FS)) (d : FS) : FS :=
  match e with
  | .ok p => p.2
  | .error _ => d

/-- Digit grouping for `Number.prototype.toLocaleString` on the integer pixel
counts: commas every three digits, working over the reversed digit list. -/
def groupRev (l : List Char) : List Char :=
  if _h : l.length ≤ 3 then l
  else l.take 3 ++ ',' :: groupRev (l.drop 3)
termination_by l.length
decreasing_by
  simp only [List.length_drop]
  omega

/-- `n.toLocaleString()` for the nonnegative integers the server prints. -/
def jsToLocaleString (n : ℕ) : String :=
  String.mk ((groupRev (toString n).toList.reverse).reverse)

/-- Round a nonnegative rational value to hundredths the way
`Number.prototype.toFixed(2)` does (ties away from zero). -/
def jqRound2 (a : JQ) : ℕ := (Int.tdiv (a.num * 200 + a.den) (a.den * 2)).toNat

/-- Format a hundredths count as a fixed two-decimal string. -/
def natFixed2 (n : ℕ) : String :=
  toString (n / 100) ++ "." ++ (if n % 100 < 10 then "0" else "") ++ toString (n % 100)

/-- `x.toFixed(2)` on the difference percentage (`NaN` and `Infinity` print
as their JavaScript string forms). -/
def jnToFixed2 (x : JNum) : String :=
  match x with
  | .nan => "NaN"
  | .inf => "Infinity"
  | .num q => if q.num < 0 then "-" ++ natFixed2 (jqRound2 (-q)) else natFixed2 (jqRound2 q)

/-- A content item of an MCP tool response: text, or an inline image with a
mime type. -/
inductive MCPContent where
  | text (s : String)
  | image (data : String) (mimeType : String)
deriving DecidableEq

/-- An MCP tool response: content items plus the `isError` flag. -/
structure ToolResponse where
  content : List MCPContent
  isError : Bool
deriving DecidableEq

/-- The statistics text built by the `CallToolRequestSchema` handler
(`src/index.ts` lines 153-159) for a successful comparison. -/
def successText (result : CompareResult) (output_diff_path : Option String) : String :=
  "Design Comparison Results:\n\n" ++
    "Total Pixels: " ++ jsToLocaleString result.totalPixels ++ "\n" ++
    "Different Pixels: " ++ jsToLocaleString result.differentPixels ++ "\n" ++
    "Difference: " ++ jnToFixed2 result.differencePercentage ++ "%\n" ++
    (match output_diff_path with
     | some p => if p != "" then "\nDiff image saved to: " ++ p else ""
     | none => "")

/-- The `CallToolRequestSchema` handler of `src/index.ts` (lines 131-195).
For the tool `compare_design` it destructures the arguments (with the
`threshold = 0.1` default), runs `compareScreenshots` inside `try`, and on
failure returns an `isError` response wrapping the error message; the
success response carries the statistics text plus the base64 diff image when
one was produced.  For any other tool name the handler throws
`Unknown tool: <name>` (modelled as `Except.error`) instead of returning a
response. -/
def handleCallTool (fs : FS) (name : String) (design_path implementation_path : String)
    (output_diff_path : Option String) (threshold : Option JQ) :
    Except String (ToolResponse × FS) :=
  if name = "compare_design" then
    match compareScreenshots fs design_path implementation_path output_diff_path
        (threshold.getD 0.1) with
    | .ok (result, fs2) =>
      let content :=
        [MCPContent.text (successText result output_diff_path)] ++
          (match result.diffImageBase64 with
           | some d => [MCPContent.image d "image/png"]
           | none => [])
      .ok (⟨content, false⟩, fs2)
    | .error msg =>
      .ok (⟨[MCPContent.text ("Error comparing screenshots: " ++ msg)], true⟩, fs)
  else .error ("Unknown tool: " ++ name)

/-- Whether `pat` is a prefix of `l` (character lists). -/
def startsWithL : List Char → List Char → Bool
  | _, [] => true
  | [], _ :: _ => false
  | c :: cs, p :: ps => c = p && startsWithL cs ps

/-- Whether `pat` occurs somewhere in `l`. -/
def hasSubL : List Char → List Char → Bool
  | l, pat =>
    startsWithL l pat ||
      (match l with
       | [] => false
       | _ :: t => hasSubL t pat)

/-- Whether the string `pat` occurs in `s`. -/
def strContains (s pat : String) : Bool := hasSubL s.toList pat.toList

/-- The bytes of an ASCII text file with the given content. -/
def asciiBytes (s : String) : List ℕ := s.toList.map Char.toNat

/-- A solid-colour test raster, as built by the repository's test helper
`createTestPNG`. -/
def solidImage (w h r g b a : ℕ) : PNGImage :=
  ⟨w, h, (List.range (w * h)).flatMap (fun _ => [r, g, b, a])⟩

/-- The difference count `pixelmatchRun` returns once its size checks have
passed: 0 on the identical fast path, the main loop count otherwise. -/
def pmCountOf (img1 img2 : List ℕ) (w h : ℕ) (t : JQ) : ℕ :=
  if img1 = img2 then 0 else pmMainCount img1 img2 w h (35215 * t * t)

/-- The diff buffer `pixelmatchRun` produces once its size checks have
passed. -/
def pmDataOf (img1 img2 : List ℕ) (w h : ℕ) (t : JQ) : List ℕ :=
  if img1 = img2 then identicalOut img1 (w * h)
  else pmMainOut img1 img2 w h (35215 * t * t)

/-- The difference count of a comparison of two loaded rasters. -/
def pmCountAB (a b : PNGImage) (t : JQ) : ℕ :=
  pmCountOf a.data b.data a.width a.height t

/-- The diff image a comparison of two loaded rasters builds. -/
def diffImageAB (a b : PNGImage) (t : JQ) : PNGImage :=
  ⟨a.width, a.height, pmDataOf a.data b.data a.width a.height t⟩

/-- The result record a successful `compareLoaded` call returns. -/
def mkCompareResult (a b : PNGImage) (out : Option String) (t : JQ) : CompareResult :=
  ⟨a.width * a.height, pmCountAB a b t,
    differencePercentageOf (pmCountAB a b t) (a.width * a.height),
    if jsTruthy out then none
    else some (base64Encode (pngSyncWrite (diffImageAB a b t)))⟩

/-- The file system a successful `compareLoaded` call leaves behind. -/
def mkOutFS (fs : FS) (a b : PNGImage) (out : Option String) (t : JQ) : FS :=
  if jsTruthy out then fsWrite fs (out.getD "") (pngSyncWrite (diffImageAB a b t)) else fs

/-- 1x1 solid red test raster. -/
def imgRed1 : PNGImage := solidImage 1 1 255 0 0 255

/-- 1x1 solid blue test raster. -/
def imgBlue1 : PNGImage := solidImage 1 1 0 0 255 255

/-- 1x1 gray raster. -/
def imgGrayA : PNGImage := solidImage 1 1 100 100 100 255

/-- 1x1 gray raster one step lighter in the red channel. -/
def imgGrayB : PNGImage := solidImage 1 1 101 100 100 255

/-- File system with a red and a blue 1x1 screenshot. -/
def fsRedBlue : FS := fun p =>
  if p = "design.png" then some (pngSyncWrite imgRed1)
  else if p = "impl.png" then some (pngSyncWrite imgBlue1)
  else none

/-- File system with two marginally different gray 1x1 screenshots. -/
def fsGray : FS := fun p =>
  if p = "a.png" then some (pngSyncWrite imgGrayA)
  else if p = "b.png" then some (pngSyncWrite imgGrayB)
  else none

/-- File system with two identical 1x1 screenshots. -/
def fsSame : FS := fun p =>
  if p = "a.png" then some (pngSyncWrite imgGrayA)
  else if p = "b.png" then some (pngSyncWrite imgGrayA)
  else none

/-- File system with a 10x10 design and a 20x20 implementation. -/
def fsMismatch : FS := fun p =>
  if p = "design.png" then some (pngSyncWrite (solidImage 10 10 255 0 0 255))
  else if p = "impl.png" then some (pngSyncWrite (solidImage 20 20 0 0 255 255))
  else none

/-- File system holding the test fixture of the repository's format test: a
file whose content is the plain text `This is not an image file`. -/
def fsNotImage : FS := fun p =>
  if p = "not-an-image.txt" then some (asciiBytes "This is not an image file") else none

/-- The threshold value -1/2, an out-of-range threshold. -/
def negHalf : JQ := ⟨-1, 2, two_pos⟩

/-- The threshold value 1/2. -/
def posHalf : JQ := ⟨1, 2, two_pos⟩

/-- The result of the red-vs-blue comparison used as a concrete witness. -/
def resRedBlue : CompareResult := ⟨1, 1, JNum.num ⟨100, 1, one_pos⟩, none⟩

/-- The result of an identical-images comparison used as a concrete
witness. -/
def resSame : CompareResult := ⟨1, 0, JNum.num ⟨0, 1, one_pos⟩, none⟩

/-- The result of the gray comparison at threshold 0 (one pixel flagged). -/
def resGray1 : CompareResult := ⟨1, 1, JNum.num ⟨100, 1, one_pos⟩, none⟩

/-- The result of the gray comparison at threshold 0.1 (no pixel flagged). -/
def resGray0 : CompareResult := ⟨1, 0, JNum.num ⟨0, 1, one_pos⟩, none⟩

theorem JQ.mul_num (a b : JQ) : (a * b).num = a.num * b.num := rfl

theorem JQ.mul_den (a b : JQ) : (a * b).den = a.den * b.den := rfl

theorem JQ.toRat_mul (a b : JQ) : (a * b).toRat = a.toRat * b.toRat := by
  unfold JQ.toRat
  rw [JQ.mul_num, JQ.mul_den]
  push_cast
  rw [div_mul_div_comm]

theorem JQ.toRat_natCast (n : ℕ) : ((n : ℕ) : JQ).toRat = (n : ℚ) := by
  show ((⟨(n : ℤ), 1, one_pos⟩ : JQ)).toRat = (n : ℚ)
  unfold JQ.toRat
  norm_num

theorem JQ.toRat_lit : ((35215 : JQ)).toRat = (35215 : ℚ) := by
  show ((⟨(35215 : ℤ), 1, one_pos⟩ : JQ)).toRat = (35215 : ℚ)
  unfold JQ.toRat
  norm_num

theorem JQ.toRat_zero : ((0 : JQ)).toRat = 0 := by
  show ((⟨(0 : ℤ), 1, one_pos⟩ : JQ)).toRat = 0
  unfold JQ.toRat
  norm_num

theorem JQ.lt_iff (a b : JQ) : a < b ↔ a.toRat < b.toRat := Iff.rfl

theorem JQ.le_iff (a b : JQ) : a ≤ b ↔ a.toRat ≤ b.toRat := Iff.rfl

/-- The percentage stored for a successful comparison: with a positive total
it is the plain rational `differentPixels / totalPixels * 100`. -/
theorem differencePercentageOf_pos (cnt total : ℕ) (h : 0 < total) :
    ∃ j, differencePercentageOf cnt total = JNum.num j ∧
      j.toRat = (cnt : ℚ) / (total : ℚ) * 100 := by
  have htz : ((total : ℤ)) ≠ 0 := by exact_mod_cast h.ne.symm
  have hdivpos : (0 : ℤ) < (total : ℤ) := by exact_mod_cast h
  refine ⟨⟨(cnt : ℤ) * 1 * 100, 1 * (total : ℤ) * 1, by positivity⟩, ?_, ?_⟩
  · show jnMulNat (jnDiv (JNum.num ⟨(cnt : ℤ), 1, one_pos⟩) (JNum.num ⟨(total : ℤ), 1, one_pos⟩))
      100 = _
    show jnMulNat (if ((⟨(total : ℤ), 1, one_pos⟩ : JQ)).num = 0 then
        (if ((⟨(cnt : ℤ), 1, one_pos⟩ : JQ)).num = 0 then JNum.nan else JNum.inf)
      else JNum.num ((⟨(cnt : ℤ), 1, one_pos⟩ : JQ) / ⟨(total : ℤ), 1, one_pos⟩)) 100 = _
    rw [if_neg (show ¬((⟨(total : ℤ), 1, one_pos⟩ : JQ)).num = 0 from htz)]
    show JNum.num ((⟨(cnt : ℤ), 1, one_pos⟩ : JQ) / ⟨(total : ℤ), 1, one_pos⟩ * ((100 : ℕ) : JQ)) = _
    have hdiv : (⟨(cnt : ℤ), 1, one_pos⟩ : JQ) / ⟨(total : ℤ), 1, one_pos⟩ =
        ⟨(cnt : ℤ) * 1, 1 * (total : ℤ), mul_pos one_pos hdivpos⟩ := dif_pos hdivpos
    rw [hdiv]
    rfl
  · unfold JQ.toRat
    push_cast
    field_simp

theorem pmCountedAt_iff (img1 img2 : List ℕ) (w h : ℕ) (d : JQ) (x y : ℕ) :
    pmCountedAt img1 img2 w h d x y = true ↔
      (d < JQ.absV (colorDelta img1 img2 (pixelPos w x y) (pixelPos w x y) false) ∧
        (antialiased img1 x y w h img2 || antialiased img2 x y w h img1) = false) := by
  unfold pmCountedAt
  show (if d < JQ.absV (colorDelta img1 img2 (pixelPos w x y) (pixelPos w x y) false) then
      !(antialiased img1 x y w h img2 || antialiased img2 x y w h img1)
    else false) = true ↔ _
  split
  · rename_i hlt
    simp [hlt]
  · rename_i hlt
    simp [hlt]

theorem pmMainCount_anti (img1 img2 : List ℕ) (w h : ℕ) (d1 d2 : JQ)
    (hd : d1.toRat ≤ d2.toRat) :
    pmMainCount img1 img2 w h d2 ≤ pmMainCount img1 img2 w h d1 := by
  apply List.countP_mono_left
  intro a _ hp
  rw [pmCountedAt_iff] at hp ⊢
  refine ⟨?_, hp.2⟩
  have h1 := (JQ.lt_iff _ _).mp hp.1
  exact (JQ.lt_iff _ _).mpr (lt_of_le_of_lt hd h1)

theorem positions_length (w h : ℕ) : (positions w h).length = w * h := by
  unfold positions
  rw [List.length_flatMap]
  simp [Function.comp_def, Nat.mul_comm]

theorem pmCountOf_self (img : List ℕ) (w h : ℕ) (t : JQ) : pmCountOf img img w h t = 0 := by
  unfold pmCountOf
  simp

theorem pmCountOf_le (img1 img2 : List ℕ) (w h : ℕ) (t : JQ) :
    pmCountOf img1 img2 w h t ≤ w * h := by
  unfold pmCountOf
  split
  · exact Nat.zero_le _
  · calc pmMainCount img1 img2 w h (35215 * t * t) ≤ (positions w h).length :=
        List.countP_le_length _
    _ = w * h := positions_length w h

theorem pmCountOf_anti (img1 img2 : List ℕ) (w h : ℕ) (t1 t2 : JQ)
    (h0 : (0 : ℚ) ≤ t1.toRat) (h12 : t1.toRat ≤ t2.toRat) :
    pmCountOf img1 img2 w h t2 ≤ pmCountOf img1 img2 w h t1 := by
  unfold pmCountOf
  by_cases he : img1 = img2
  · simp [he]
  · simp only [he, if_false]
    apply pmMainCount_anti
    rw [JQ.toRat_mul, JQ.toRat_mul, JQ.toRat_mul, JQ.toRat_mul, JQ.toRat_lit]
    nlinarith [mul_le_mul h12 h12 h0 (le_trans h0 h12)]

theorem pixelmatchRun_eq_ok (img1 img2 : List ℕ) (w h : ℕ) (t : JQ)
    (h1 : img1.length = img2.length) (h2 : img1.length = w * h * 4) :
    pixelmatchRun img1 img2 w h t = .ok (pmCountOf img1 img2 w h t, pmDataOf img1 img2 w h t) := by
  unfold pixelmatchRun pmCountOf pmDataOf
  rw [if_neg (by push_neg; exact ⟨h1, h2.symm⟩), if_neg (by push_neg; exact h2)]
  by_cases he : img1 = img2 <;> simp [he]

theorem compareLoaded_eq (fs : FS) (a b : PNGImage) (out : Option String) (t : JQ)
    (ha : a.data.length = a.width * a.height * 4)
    (hb : b.data.length = b.width * b.height * 4)
    (hw : a.width = b.width) (hh : a.height = b.height) :
    compareLoaded fs a b out t = .ok (mkCompareResult a b out t, mkOutFS fs a b out t) := by
  unfold compareLoaded
  rw [if_neg (by simp [hw, hh])]
  rw [pixelmatchRun_eq_ok a.data b.data a.width a.height t
    (by rw [ha, hb, hw, hh]) ha]
  unfold mkCompareResult mkOutFS pmCountAB diffImageAB jsTruthy
  cases out with
  | none => simp
  | some p =>
    by_cases hp : p = "" <;> simp [hp]

theorem loadPNG_valid {fs : FS} {p : String} {img : PNGImage}
    (h : loadPNG fs p = .ok img) : ValidRaster img := by
  unfold loadPNG at h
  cases hr : fsReadFile fs p with
  | error e => rw [hr] at h; cases h
  | ok bytes =>
    rw [hr] at h
    change PNGsyncRead bytes = Except.ok img at h
    unfold PNGsyncRead at h
    by_cases hsig : bytes.take 8 ≠ pngSignature
    · rw [if_pos hsig] at h
      cases h
    · rw [if_neg hsig] at h
      by_cases hcond : 1 ≤ be32 (bytes.drop 8) ∧ 1 ≤ be32 (bytes.drop 12) ∧
          (bytes.drop 16).length = be32 (bytes.drop 8) * be32 (bytes.drop 12) * 4
      · rw [if_pos hcond] at h
        cases h
        exact ⟨hcond.1, hcond.2.1, hcond.2.2⟩
      · rw [if_neg hcond] at h
        cases h

theorem compareScreenshots_ok_inv {fs : FS} {p1 p2 : String} {out : Option String}
    {t : JQ} {pr : CompareResult × FS}
    (h : compareScreenshots fs p1 p2 out t = .ok pr) :
    ∃ a b, loadPNG fs p1 = .ok a ∧ loadPNG fs p2 = .ok b ∧
      compareLoaded fs a b out t = .ok pr := by
  unfold compareScreenshots at h
  cases h1 : loadPNG fs p1 with
  | error e => rw [h1] at h; cases h
  | ok a =>
    rw [h1] at h
    cases h2 : loadPNG fs p2 with
    | error e => rw [h2] at h; cases h
    | ok b => exact ⟨a, b, rfl, rfl, by rw [h2] at h; exact h⟩

theorem compareLoaded_ok_dims {fs : FS} {a b : PNGImage} {out : Option String}
    {t : JQ} {pr : CompareResult × FS}
    (h : compareLoaded fs a b out t = .ok pr) :
    a.width = b.width ∧ a.height = b.height := by
  unfold compareLoaded at h
  split at h
  · cases h
  · rename_i hcond
    push_neg at hcond
    exact hcond

theorem runResult_some {e : Except String (CompareResult × FS)} {res : CompareResult}
    (h : runResult e = some res) : ∃ fs2, e = .ok (res, fs2) := by
  unfold runResult at h
  cases e with
  | ok p =>
    injection h with h1
    exact ⟨p.2, by rw [← h1]⟩
  | error m => cases h

/-- The full success-path characterization of `compareScreenshots`: a
successful call loads two valid rasters of equal dimensions and returns the
record and file system built by the comparison body. -/
theorem compareScreenshots_success {fs : FS} {p1 p2 : String} {out : Option String}
    {t : JQ} {res : CompareResult}
    (h : runResult (compareScreenshots fs p1 p2 out t) = some res) :
    ∃ a b, loadPNG fs p1 = .ok a ∧ loadPNG fs p2 = .ok b ∧
      ValidRaster a ∧ ValidRaster b ∧ a.width = b.width ∧ a.height = b.height ∧
      res = mkCompareResult a b out t ∧
      compareScreenshots fs p1 p2 out t =
        .ok (mkCompareResult a b out t, mkOutFS fs a b out t) := by
  obtain ⟨fs2, he⟩ := runResult_some h
  obtain ⟨a, b, h1, h2, hcl⟩ := compareScreenshots_ok_inv he
  have hva := loadPNG_valid h1
  have hvb := loadPNG_valid h2
  obtain ⟨hw, hh⟩ := compareLoaded_ok_dims hcl
  have heq := compareLoaded_eq fs a b out t hva.2.2 hvb.2.2 hw hh
  have hcs : compareScreenshots fs p1 p2 out t = compareLoaded fs a b out t := by
    unfold compareScreenshots
    rw [h1, h2]
  rw [heq] at hcl
  injection hcl with h3
  have hres : mkCompareResult a b out t = res := congrArg Prod.fst h3
  exact ⟨a, b, h1, h2, hva, hvb, hw, hh, hres.symm, by rw [hcs, heq]⟩

/-- C7: comparing a valid raster with an identical copy of itself, at any
threshold and with or without an output path, yields `differentPixels = 0`
and a difference percentage whose value is 0. -/
theorem c7_identity (fs : FS) (r : PNGImage) (out : Option String) (t : JQ)
    (hr : ValidRaster r) :
    ∃ j, (runResult (compareLoaded fs r r out t)).map
        (fun res => (res.differentPixels, res.differencePercentage)) =
      some (0, JNum.num j) ∧ j.toRat = 0 := by
  have heq := compareLoaded_eq fs r r out t hr.2.2 hr.2.2 rfl rfl
  have hcnt : pmCountAB r r t = 0 := pmCountOf_self _ _ _ _
  have htot : 0 < r.width * r.height := Nat.mul_pos hr.1 hr.2.1
  obtain ⟨j, hj, hjv⟩ := differencePercentageOf_pos (pmCountAB r r t) (r.width * r.height) htot
  refine ⟨j, ?_, ?_⟩
  · rw [heq]
    unfold runResult
    show some ((mkCompareResult r r out t).differentPixels,
      (mkCompareResult r r out t).differencePercentage) = _
    unfold mkCompareResult
    rw [hcnt] at hj ⊢
    rw [hj]
  · rw [hjv, hcnt]
    norm_num

/-- C7 witness: the identity property instantiated on a concrete 1x1 gray
raster. -/
theorem c7_identity_witness :
    ∃ j, (runResult (compareLoaded emptyFS imgGrayA imgGrayA (some "d.png") posHalf)).map
        (fun res => (res.differentPixels, res.differencePercentage)) =
      some (0, JNum.num j) ∧ j.toRat = 0 :=
  c7_identity emptyFS imgGrayA (some "d.png") posHalf (by decide)

/-- C8: for a fixed pair of valid, equal-shaped rasters, raising the
threshold within the nonnegative range never increases the `differentPixels`
count returned by the comparison (the cutoff `35215 * t^2` grows with `t`,
and the anti-aliasing classification is threshold-independent). -/
theorem c8_threshold_monotone (fs : FS) (a b : PNGImage) (out : Option String)
    (t1 t2 : JQ) (r1 r2 : CompareResult)
    (hva : ValidRaster a) (hvb : ValidRaster b)
    (hw : a.width = b.width) (hh : a.height = b.height)
    (h0 : (0 : JQ) ≤ t1) (h12 : t1 ≤ t2)
    (e1 : runResult (compareLoaded fs a b out t1) = some r1)
    (e2 : runResult (compareLoaded fs a b out t2) = some r2) :
    r2.differentPixels ≤ r1.differentPixels := by
  rw [compareLoaded_eq fs a b out t1 hva.2.2 hvb.2.2 hw hh] at e1
  rw [compareLoaded_eq fs a b out t2 hva.2.2 hvb.2.2 hw hh] at e2
  unfold runResult at e1 e2
  injection e1 with e1h
  injection e2 with e2h
  rw [← e1h, ← e2h]
  show (mkCompareResult a b out t2).differentPixels ≤ (mkCompareResult a b out t1).differentPixels
  unfold mkCompareResult pmCountAB
  have h0r : (0 : ℚ) ≤ t1.toRat := by
    rw [← JQ.toRat_zero]
    exact h0
  exact pmCountOf_anti a.data b.data a.width a.height t1 t2 h0r h12

/-- C8 witness: the monotonicity property instantiated on the 1x1 gray pair
at thresholds 0 and 0.1. -/
theorem c8_threshold_monotone_witness : resGray0.differentPixels ≤ resGray1.differentPixels :=
  c8_threshold_monotone emptyFS imgGrayA imgGrayB (some "d.png") 0 (0.1 : JQ)
    resGray1 resGray0 (by decide) (by decide) rfl rfl (by decide) (by decide)
    (by decide) (by decide)

/-- C9: every successful `compareScreenshots` call returns
`differentPixels <= totalPixels`, and a difference percentage that is a
plain number (not `NaN` or `Infinity`) between 0 and 100. -/
theorem c9_bounds (fs : FS) (p1 p2 : String) (out : Option String) (t : JQ)
    (res : CompareResult)
    (h : runResult (compareScreenshots fs p1 p2 out t) = some res) :
    res.differentPixels ≤ res.totalPixels ∧
      ∃ j, res.differencePercentage = JNum.num j ∧ 0 ≤ j.toRat ∧ j.toRat ≤ 100 := by
  obtain ⟨a, b, _, _, hva, hvb, hw, hh, hres, _⟩ := compareScreenshots_success h
  subst hres
  have htot : 0 < a.width * a.height := Nat.mul_pos hva.1 hva.2.1
  have hcnt : pmCountAB a b t ≤ a.width * a.height := pmCountOf_le _ _ _ _ _
  constructor
  · exact hcnt
  · obtain ⟨j, hj, hjv⟩ :=
      differencePercentageOf_pos (pmCountAB a b t) (a.width * a.height) htot
    refine ⟨j, hj, ?_, ?_⟩
    · rw [hjv]
      positivity
    · rw [hjv]
      have htotq : (0 : ℚ) < ((a.width * a.height : ℕ) : ℚ) := by exact_mod_cast htot
      have hcntq : ((pmCountAB a b t : ℕ) : ℚ) ≤ ((a.width * a.height : ℕ) : ℚ) := by
        exact_mod_cast hcnt
      rw [div_mul_eq_mul_div, div_le_iff₀ htotq]
      linarith

/-- C9 witness: the bounds property instantiated on a concrete successful
comparison of two identical 1x1 screenshots. -/
theorem c9_bounds_witness :
    resSame.differentPixels ≤ resSame.totalPixels ∧
      ∃ j, resSame.differencePercentage = JNum.num j ∧ 0 ≤ j.toRat ∧ j.toRat ≤ 100 :=
  c9_bounds fsSame "a.png" "b.png" (some "d.png") (0.1 : JQ) resSame (by decide)

/-- C6 (amended): every successful comparison stores exactly the line-59
computation `(differentPixels / totalPixels) * 100`, and its total is
positive (decoded rasters have positive dimensions), so the stored
percentage is the plain rational `differentPixels / totalPixels * 100`.
There is no guard for `totalPixels = 0`: see the counterexample, where the
same computation at total 0 yields `NaN`, not 0. -/
theorem c6_percentage_formula (fs : FS) (p1 p2 : String) (out : Option String)
    (t : JQ) (res : CompareResult)
    (h : runResult (compareScreenshots fs p1 p2 out t) = some res) :
    res.differencePercentage = differencePercentageOf res.differentPixels res.totalPixels ∧
      1 ≤ res.totalPixels ∧
      ∃ j, res.differencePercentage = JNum.num j ∧
        j.toRat = (res.differentPixels : ℚ) / (res.totalPixels : ℚ) * 100 := by
  obtain ⟨a, b, _, _, hva, hvb, hw, hh, hres, _⟩ := compareScreenshots_success h
  subst hres
  have htot : 0 < a.width * a.height := Nat.mul_pos hva.1 hva.2.1
  refine ⟨rfl, htot, ?_⟩
  obtain ⟨j, hj, hjv⟩ :=
    differencePercentageOf_pos (pmCountAB a b t) (a.width * a.height) htot
  exact ⟨j, hj, hjv⟩

/-- C6 witness: the percentage formula instantiated on a concrete successful
comparison. -/
theorem c6_percentage_formula_witness :
    resSame.differencePercentage =
        differencePercentageOf resSame.differentPixels resSame.totalPixels ∧
      1 ≤ resSame.totalPixels ∧
      ∃ j, resSame.differencePercentage = JNum.num j ∧
        j.toRat = (resSame.differentPixels : ℚ) / (resSame.totalPixels : ℚ) * 100 :=
  c6_percentage_formula fsSame "a.png" "b.png" (some "d.png") (0.1 : JQ) resSame (by decide)

/-- C6 counterexample: the percentage computation of line 59 evaluated at
`totalPixels = 0` is JavaScript `NaN` — it is not the number 0, so the
division-by-zero case is not guarded to 0 as the claim states. -/
theorem c6_counterexample :
    differencePercentageOf 0 0 = JNum.nan ∧ differencePercentageOf 0 0 ≠ jnOfNat 0 := by
  constructor
  · rfl
  · decide

/-- C1 counterexample: a successful `compareScreenshots` call *with* an
output path given.  The returned record — `CompareResult` translated
verbatim from `src/index.ts` lines 13-18 — has `diffImageBase64 = none` and
possesses no diff-image-path field at all (the interface declares none), so
this result carries *neither* of the two diff-output fields the claim names:
"never neither" fails, and in particular the result does not "contain a
diff-image path field". -/
theorem c1_counterexample :
    runResult (compareScreenshots fsRedBlue "design.png" "impl.png" (some "diff.png")
      (0.1 : JQ)) = some resRedBlue ∧ resRedBlue.diffImageBase64 = none := by
  constructor
  · decide
  · rfl

/-- C1 (amended): a successful call carries the base64 field exactly when
the output path is not truthy (absent or empty); with a truthy output path
the encoded diff is written to that path instead and the result carries no
diff-output field at all — the result interface has no path field. -/
theorem c1_exclusive_output (fs : FS) (p1 p2 : String) (out : Option String)
    (t : JQ) (res : CompareResult)
    (h : runResult (compareScreenshots fs p1 p2 out t) = some res) :
    res.diffImageBase64.isSome = !(jsTruthy out) ∧
      (jsTruthy out = true →
        ((runFS (compareScreenshots fs p1 p2 out t) fs) (out.getD "")).isSome = true) := by
  obtain ⟨a, b, _, _, hva, hvb, hw, hh, hres, hfull⟩ := compareScreenshots_success h
  subst hres
  constructor
  · show (mkCompareResult a b out t).diffImageBase64.isSome = _
    unfold mkCompareResult
    cases hjt : jsTruthy out <;> simp [hjt]
  · intro hjt
    rw [hfull]
    unfold runFS mkOutFS
    rw [if_pos hjt]
    simp [fsWrite]

/-- C1 witness: the amended exclusive-output behaviour instantiated on a
concrete call with the truthy output path `diff.png`. -/
theorem c1_exclusive_output_witness :
    resRedBlue.diffImageBase64.isSome = !(jsTruthy (some "diff.png")) ∧
      (jsTruthy (some "diff.png") = true →
        ((runFS (compareScreenshots fsRedBlue "design.png" "impl.png" (some "diff.png")
          (0.1 : JQ)) fsRedBlue) ((some "diff.png").getD "")).isSome = true) :=
  c1_exclusive_output fsRedBlue "design.png" "impl.png" (some "diff.png") (0.1 : JQ)
    resRedBlue (by decide)

/-- C4: whenever both loads succeed and the rasters disagree in width or
height, `compareScreenshots` fails — for every threshold and every pixel
content, i.e. before any pixel comparison — with the dimension-mismatch
error, whose message interpolates both rasters' dimensions verbatim in the
form `WxH`. -/
theorem c4_dimension_mismatch (fs : FS) (p1 p2 : String) (out : Option String)
    (t : JQ) (a b : PNGImage)
    (h1 : loadPNG fs p1 = .ok a) (h2 : loadPNG fs p2 = .ok b)
    (hne : a.width ≠ b.width ∨ a.height ≠ b.height) :
    compareScreenshots fs p1 p2 out t = .error (dimMismatchMsg a b) ∧
      dimMismatchMsg a b = "Image dimensions don" ++ squote ++ "t match: design (" ++
        toString a.width ++ "x" ++ toString a.height ++ ") vs implementation (" ++
        toString b.width ++ "x" ++ toString b.height ++ ")" := by
  constructor
  · unfold compareScreenshots
    rw [h1, h2]
    show compareLoaded fs a b out t = _
    unfold compareLoaded
    rw [if_pos hne]
  · rfl

set_option maxRecDepth 8000 in
/-- C4 witness: comparing a 10x10 raster against a 20x20 raster fails with
the dimension-mismatch error, and the message contains the literal
dimensions `10x10` and `20x20`. -/
theorem c4_dimension_mismatch_witness :
    compareScreenshots fsMismatch "design.png" "impl.png" none (0.1 : JQ) =
      .error (dimMismatchMsg (solidImage 10 10 255 0 0 255) (solidImage 20 20 0 0 255 255)) ∧
    strContains (dimMismatchMsg (solidImage 10 10 255 0 0 255) (solidImage 20 20 0 0 255 255))
      "10x10" = true ∧
    strContains (dimMismatchMsg (solidImage 10 10 255 0 0 255) (solidImage 20 20 0 0 255 255))
      "20x20" = true :=
  ⟨(c4_dimension_mismatch fsMismatch "design.png" "impl.png" none (0.1 : JQ)
      (solidImage 10 10 255 0 0 255) (solidImage 20 20 0 0 255 255) rfl rfl
      (Or.inl (by decide))).1,
   by decide, by decide⟩

theorem pixelmatchRun_congr (img1 img2 : List ℕ) (w h : ℕ) (t t' : JQ)
    (hmd : 35215 * t * t = 35215 * t' * t') :
    pixelmatchRun img1 img2 w h t = pixelmatchRun img1 img2 w h t' := by
  unfold pixelmatchRun
  rw [hmd]

theorem compareLoaded_congr (fs : FS) (a b : PNGImage) (out : Option String)
    (t t' : JQ) (hmd : 35215 * t * t = 35215 * t' * t') :
    compareLoaded fs a b out t = compareLoaded fs a b out t' := by
  unfold compareLoaded
  rw [pixelmatchRun_congr a.data b.data a.width a.height t t' hmd]

theorem pixelmatchRun_error_eq (img1 img2 : List ℕ) (w h : ℕ) (t t' : JQ) (e : String)
    (hok : pixelmatchRun img1 img2 w h t = .error e) :
    pixelmatchRun img1 img2 w h t' = .error e := by
  unfold pixelmatchRun at hok ⊢
  split at hok
  · rename_i hc1
    simp only [if_pos hc1]
    exact hok
  · rename_i hc1
    simp only [if_neg hc1]
    split at hok
    · rename_i hc2
      simp only [if_pos hc2]
      exact hok
    · rename_i hc2
      simp only [if_neg hc2]
      split at hok
      · cases hok
      · rename_i hid
        simp only [if_neg hid]
        cases hok

theorem pixelmatchRun_ok_status (img1 img2 : List ℕ) (w h : ℕ) (t t' : JQ)
    (c : ℕ) (d : List ℕ) (hok : pixelmatchRun img1 img2 w h t = .ok (c, d)) :
    ∃ c2 d2, pixelmatchRun img1 img2 w h t' = .ok (c2, d2) := by
  unfold pixelmatchRun at hok ⊢
  split at hok
  · cases hok
  · rename_i hc1
    simp only [if_neg hc1]
    split at hok
    · cases hok
    · rename_i hc2
      simp only [if_neg hc2]
      by_cases hid : img1 = img2
      · simp only [if_pos hid]
        exact ⟨_, _, rfl⟩
      · simp only [if_neg hid]
        exact ⟨_, _, rfl⟩

theorem runError_compareLoaded_indep (fs : FS) (a b : PNGImage)
    (out : Option String) (t t' : JQ) :
    runError (compareLoaded fs a b out t) = runError (compareLoaded fs a b out t') := by
  unfold compareLoaded
  by_cases hd : a.width ≠ b.width ∨ a.height ≠ b.height
  · simp only [if_pos hd]
  · simp only [if_neg hd]
    cases hpm : pixelmatchRun a.data b.data a.width a.height t with
    | error e =>
      rw [pixelmatchRun_error_eq a.data b.data a.width a.height t t' e hpm]
    | ok pr =>
      obtain ⟨c2, d2, hpm2⟩ := pixelmatchRun_ok_status a.data b.data a.width a.height t t'
        pr.1 pr.2 (by rw [hpm])
      rw [hpm2]
      cases out with
      | none => rfl
      | some p =>
        by_cases hp : p = ""
        · simp only [if_pos hp]
          rfl
        · simp only [if_neg hp]
          rfl

/-- C5 (amended): `compareScreenshots` neither clamps nor rejects an
out-of-range threshold — it silently passes the value through to the pixel
comparison.  Formally: whether (and with which message) a call fails never
depends on the threshold at all, and the entire call result depends on the
threshold only through the unvalidated cutoff `35215 * threshold^2` that the
comparison uses. -/
theorem c5_threshold_passthrough :
    (∀ (fs : FS) (p1 p2 : String) (out : Option String) (t t' : JQ),
      runError (compareScreenshots fs p1 p2 out t) =
        runError (compareScreenshots fs p1 p2 out t')) ∧
    (∀ (fs : FS) (p1 p2 : String) (out : Option String) (t t' : JQ),
      35215 * t * t = 35215 * t' * t' →
        compareScreenshots fs p1 p2 out t = compareScreenshots fs p1 p2 out t') := by
  constructor
  · intro fs p1 p2 out t t'
    unfold compareScreenshots
    cases h1 : loadPNG fs p1 with
    | error e => rfl
    | ok a =>
      cases h2 : loadPNG fs p2 with
      | error e => rfl
      | ok b => exact runError_compareLoaded_indep fs a b out t t'
  · intro fs p1 p2 out t t' hmd
    unfold compareScreenshots
    cases h1 : loadPNG fs p1 with
    | error e => rfl
    | ok a =>
      cases h2 : loadPNG fs p2 with
      | error e => rfl
      | ok b => exact compareLoaded_congr fs a b out t t' hmd

/-- C5 witness: the pass-through behaviour instantiated concretely — the
out-of-range threshold -1/2 produces the same error behaviour as threshold
5, and exactly the same call result as threshold 1/2 (both square to the
same cutoff). -/
theorem c5_threshold_passthrough_witness :
    runError (compareScreenshots fsGray "a.png" "b.png" (some "d.png") negHalf) =
      runError (compareScreenshots fsGray "a.png" "b.png" (some "d.png") (5 : JQ)) ∧
    compareScreenshots fsGray "a.png" "b.png" (some "d.png") negHalf =
      compareScreenshots fsGray "a.png" "b.png" (some "d.png") posHalf :=
  ⟨c5_threshold_passthrough.1 fsGray "a.png" "b.png" (some "d.png") negHalf (5 : JQ),
   c5_threshold_passthrough.2 fsGray "a.png" "b.png" (some "d.png") negHalf posHalf
     (by decide)⟩

/-- C5 counterexample: with the out-of-range threshold -1/2 the call is not
rejected (it returns no error) and reports 0 differing pixels, while the
same call at the nearest in-range value 0 reports 1 differing pixel — so the
out-of-range value is neither rejected nor clamped into range; it is
silently used as-is. -/
theorem c5_counterexample :
    runError (compareScreenshots fsGray "a.png" "b.png" (some "d.png") negHalf) = none ∧
    (runResult (compareScreenshots fsGray "a.png" "b.png" (some "d.png") negHalf)).map
      (fun r => r.differentPixels) = some 0 ∧
    (runResult (compareScreenshots fsGray "a.png" "b.png" (some "d.png") (0 : JQ))).map
      (fun r => r.differentPixels) = some 1 :=
  ⟨by decide, by decide, by decide⟩

/-- C10: the request handler throws `Unknown tool: <name>` (an exception,
not an `isError` response) for every tool name other than `compare_design`;
and a failure arising inside the `compare_design` pipeline is caught and
converted into an `isError` response whose text wraps the error message. -/
theorem c10_router_errors :
    (∀ (fs : FS) (name dp ip : String) (odp : Option String) (th : Option JQ),
      name ≠ "compare_design" →
        handleCallTool fs name dp ip odp th = .error ("Unknown tool: " ++ name)) ∧
    (∀ (fs : FS) (dp ip : String) (odp : Option String) (th : Option JQ) (msg : String),
      compareScreenshots fs dp ip odp (th.getD 0.1) = .error msg →
        handleCallTool fs "compare_design" dp ip odp th =
          .ok (⟨[MCPContent.text ("Error comparing screenshots: " ++ msg)], true⟩, fs)) := by
  constructor
  · intro fs name dp ip odp th hne
    unfold handleCallTool
    rw [if_neg hne]
  · intro fs dp ip odp th msg h
    unfold handleCallTool
    rw [if_pos rfl, h]

/-- C10 witness: the router behaviour instantiated concretely — an unknown
tool name is thrown, and a pipeline failure (a missing input file) comes
back as an `isError` response carrying the message. -/
theorem c10_router_errors_witness :
    handleCallTool emptyFS "other_tool" "a.png" "b.png" none none =
      .error ("Unknown tool: " ++ "other_tool") ∧
    handleCallTool emptyFS "compare_design" "a.png" "b.png" none none =
      .ok (⟨[MCPContent.text ("Error comparing screenshots: " ++ enoentMsg "a.png")], true⟩,
        emptyFS) :=
  ⟨c10_router_errors.1 emptyFS "other_tool" "a.png" "b.png" none none (by decide),
   c10_router_errors.2 emptyFS "a.png" "b.png" none none (enoentMsg "a.png") rfl⟩

/-- C2: loading the path `/non/existent/file.png` does fail before any
decoding is attempted, but with the raw `ENOENT` error of `fs.readFile`, not
with a classified `NotFound` error: the message does not contain the
classification `File not found` that the repository's own test
(`src/index.test.ts` lines 34-40) asserts. -/
theorem c2_notfound_unclassified :
    loadPNG emptyFS "/non/existent/file.png" =
      .error (enoentMsg "/non/existent/file.png") ∧
    strContains (enoentMsg "/non/existent/file.png") "File not found" = false :=
  ⟨rfl, by decide⟩

/-- C3: loading an existing file whose content is the plain text
`This is not an image file` does fail, but with the raw `pngjs` parser error
`Invalid file signature`, not with a classified `UnsupportedFormat` error:
the message does not contain the classification `Unsupported image format`
that the repository's own test (`src/index.test.ts` lines 42-53) asserts. -/
theorem c3_unsupported_unclassified :
    loadPNG fsNotImage "not-an-image.txt" = .error "Invalid file signature" ∧
    strContains "Invalid file signature" "Unsupported image format" = false :=
  ⟨rfl, by decide⟩
